import Mathlib

/-!
Verification of the dialux stacked-dialog registry.

The definitions below are a shallow embedding of the stateful registry and
stack-layout logic of the dialux package (the `DialogProvider` /
`openDialog` / `closeDialog` / `clearDialogs` context and the `DialogStack`
renderer).  Dialog content (`dialog: React.ReactElement`) is opaque and is
modelled by a type parameter `α`.  Numeric animation parameters are modelled
by rationals.
-/

namespace Dialux

/-- Caller-supplied dialog descriptor, as accepted by `DialogProvider`:
`interface DialogProps` with fields `id: string`, `open?: boolean`,
`dialog: ReactElement`.  The optional `open` field is an `Option Bool`. -/
structure DialogProps (α : Type) where
  id : String
  «open» : Option Bool
  dialog : α
deriving DecidableEq, Repr

/-- Registry entry after initialization: the provider's state normalises
`open` to a definite boolean (`open: dialog.open ?? false`). -/
structure DialogState (α : Type) where
  id : String
  «open» : Bool
  dialog : α
deriving DecidableEq, Repr

/-- Registry initialization, from `DialogProvider`:
`useState(initialDialogs?.map((d) => ({ ...d, open: d.open ?? false })) || [])`.
A missing list yields the empty registry; each descriptor's `open` defaults
to `false` when unspecified. -/
def initDialogs {α : Type} (initialDialogs : Option (List (DialogProps α))) :
    List (DialogState α) :=
  match initialDialogs with
  | none => []
  | some ds => ds.map (fun d => ⟨d.id, d.«open».getD false, d.dialog⟩)

/-- The `openDialog` operation: maps over the registry, setting `open := true`
on every descriptor whose id equals the argument and leaving the rest as is. -/
def openDialog {α : Type} (id : String) (dialogs : List (DialogState α)) :
    List (DialogState α) :=
  dialogs.map (fun dialog =>
    if dialog.id = id then { dialog with «open» := true } else dialog)

/-- The `closeDialog` operation: maps over the registry, setting
`open := false` on every descriptor whose id equals the argument. -/
def closeDialog {α : Type} (id : String) (dialogs : List (DialogState α)) :
    List (DialogState α) :=
  dialogs.map (fun dialog =>
    if dialog.id = id then { dialog with «open» := false } else dialog)

/-- The `clearDialogs` operation: sets every descriptor's `open` to `false`.
(The source guards on `if (dialogs)`, but the state is always an array, so
the guard is always taken.) -/
def clearDialogs {α : Type} (dialogs : List (DialogState α)) :
    List (DialogState α) :=
  dialogs.map (fun dialog => { dialog with «open» := false })

/-- The `handleOpenChange` handler of `DialogRootContent`: forwards the new
host-dialog open state and, when it is `false`, invokes `clearDialogs` on the
registry.  Returns the registry state after the handler runs. -/
def handleOpenChange {α : Type} (openArg : Bool) (dialogs : List (DialogState α)) :
    List (DialogState α) :=
  if openArg then dialogs else clearDialogs dialogs

/-- The registry-context accessor `useDialogContext`: reading the context
outside a provider (the context value is `undefined`) throws
`"useDialogContext must be used within a DialogProvider"`; inside a provider
it returns the context value. -/
def useDialogContext {γ : Type} (context : Option γ) : Except String γ :=
  match context with
  | none => Except.error "useDialogContext must be used within a DialogProvider"
  | some c => Except.ok c

/-- One rendered item of the `DialogStack` component: the per-item `position`
together with the animation target values `y`, `zIndex`, `scale`, `opacity`
computed for the keyed `motion.div`, and the descriptor's content. -/
structure StackItem (α : Type) where
  id : String
  position : ℤ
  y : ℚ
  zIndex : ℤ
  scale : ℚ
  opacity : ℚ
  dialog : α
deriving DecidableEq, Repr

/-- The `DialogStack` renderer: filters the registry to the open descriptors
(`dialogs.filter((d) => d.open)`), then maps each with its index to a rendered
item with `position = openDialogs.length - index - 1` and resting transform
`y = position * -offsetY`, `zIndex = openDialogs.length - position`,
`scale = 1 - offsetScale * position`,
`opacity = 1 - offsetOpacity * position`. -/
def renderStack {α : Type} (offsetY offsetScale offsetOpacity : ℚ)
    (dialogs : List (DialogState α)) : List (StackItem α) :=
  let openDialogs := dialogs.filter (fun dialog => dialog.«open»)
  openDialogs.enum.map (fun p =>
    let index := p.1
    let dialog := p.2
    let position : ℤ := (openDialogs.length : ℤ) - (index : ℤ) - 1
    { id := dialog.id
      position := position
      y := (position : ℚ) * (-offsetY)
      zIndex := (openDialogs.length : ℤ) - position
      scale := 1 - offsetScale * (position : ℚ)
      opacity := 1 - offsetOpacity * (position : ℚ)
      dialog := dialog.dialog })

/-! Helper lemmas shared by the claim theorems. -/

/-- Pointwise description of `openDialog`. -/
theorem getElem?_openDialog {α : Type} (i : String) (ds : List (DialogState α))
    (n : ℕ) (d : DialogState α) (hd : ds[n]? = some d) :
    (openDialog i ds)[n]? =
      some (if d.id = i then { d with «open» := true } else d) := by
  simp [openDialog, List.getElem?_map, hd]

/-- Pointwise description of `closeDialog`. -/
theorem getElem?_closeDialog {α : Type} (i : String) (ds : List (DialogState α))
    (n : ℕ) (d : DialogState α) (hd : ds[n]? = some d) :
    (closeDialog i ds)[n]? =
      some (if d.id = i then { d with «open» := false } else d) := by
  simp [closeDialog, List.getElem?_map, hd]

/-- Every descriptor is closed after `clearDialogs`. -/
theorem clearDialogs_all_closed {α : Type} (ds : List (DialogState α)) :
    ∀ d ∈ clearDialogs ds, d.«open» = false := by
  intro d hd
  simp only [clearDialogs, List.mem_map] at hd
  obtain ⟨e, _, he⟩ := hd
  simp [← he]

/-- The stack renderer shows exactly the open descriptors, ids and contents,
in registry order. -/
theorem renderStack_map_id_dialog {α : Type}
    (offsetY offsetScale offsetOpacity : ℚ) (ds : List (DialogState α)) :
    (renderStack offsetY offsetScale offsetOpacity ds).map
        (fun s => (s.id, s.dialog))
      = (ds.filter (fun x => x.«open»)).map (fun x => (x.id, x.dialog)) := by
  simp only [renderStack, List.map_map]
  conv_rhs => rw [← List.enum_map_snd (ds.filter (fun x => x.«open»)), List.map_map]
  rfl

/-! Claim theorems. -/

/-- C1: the Stack renderer renders exactly the descriptors with
`open = true` in registry order; the item at filtered index `n` (open subset
of size `N`) gets `position = N - n - 1`, `y = position * -offsetY`,
`zIndex = N - position`, `scale = 1 - offsetScale * position`,
`opacity = 1 - offsetOpacity * position`; and for three open descriptors
`[A, B, C]` with the default offsets the positions are `C 0, B 1, A 2` with
z-indices `3, 2, 1` and strictly decreasing opacity and scale as position
increases. -/
theorem stack_render_correct {α : Type} (offsetY offsetScale offsetOpacity : ℚ)
    (ds : List (DialogState α)) (n : ℕ) (d : DialogState α)
    (h : (ds.filter (fun x => x.«open»))[n]? = some d) :
    ((renderStack offsetY offsetScale offsetOpacity ds).map
        (fun s => (s.id, s.dialog))
      = (ds.filter (fun x => x.«open»)).map (fun x => (x.id, x.dialog)))
    ∧ (renderStack offsetY offsetScale offsetOpacity ds)[n]? = some
        { id := d.id
          position := ((ds.filter (fun x => x.«open»)).length : ℤ) - (n : ℤ) - 1
          y := ((((ds.filter (fun x => x.«open»)).length : ℤ) - (n : ℤ) - 1 : ℤ) : ℚ)
            * (-offsetY)
          zIndex := ((ds.filter (fun x => x.«open»)).length : ℤ)
            - (((ds.filter (fun x => x.«open»)).length : ℤ) - (n : ℤ) - 1)
          scale := 1 - offsetScale
            * ((((ds.filter (fun x => x.«open»)).length : ℤ) - (n : ℤ) - 1 : ℤ) : ℚ)
          opacity := 1 - offsetOpacity
            * ((((ds.filter (fun x => x.«open»)).length : ℤ) - (n : ℤ) - 1 : ℤ) : ℚ)
          dialog := d.dialog }
    ∧ ((renderStack 24 0.05 0.33
          [⟨"A", true, 0⟩, ⟨"B", true, 1⟩, ⟨"C", true, (2 : ℕ)⟩]).map
        (fun s => (s.id, s.position, s.zIndex))
      = [("A", 2, 1), ("B", 1, 2), ("C", 0, 3)])
    ∧ (∀ s ∈ renderStack 24 0.05 0.33
          [⟨"A", true, 0⟩, ⟨"B", true, 1⟩, ⟨"C", true, (2 : ℕ)⟩],
        ∀ t ∈ renderStack 24 0.05 0.33
          [⟨"A", true, 0⟩, ⟨"B", true, 1⟩, ⟨"C", true, (2 : ℕ)⟩],
        s.position < t.position → t.opacity < s.opacity ∧ t.scale < s.scale) := by
  refine ⟨renderStack_map_id_dialog _ _ _ _, ?_, by rfl, ?_⟩
  · simp [renderStack, List.getElem?_map, List.getElem?_enum, h]
  · simp only [renderStack, List.filter, List.enum, List.map, List.mem_cons]
    norm_num

/-- Witness for C1 at the registry `[{X, closed}, {Y, open}]`, filtered
index 0. -/
theorem stack_render_correct_witness :
    ((renderStack 24 0.05 0.33 [⟨"X", false, 0⟩, ⟨"Y", true, (1 : ℕ)⟩]).map
        (fun s => (s.id, s.dialog)) = [("Y", 1)])
    ∧ (renderStack 24 0.05 0.33 [⟨"X", false, 0⟩, ⟨"Y", true, (1 : ℕ)⟩])[0]?
        = some ⟨"Y", 0, 0, 1, 1, 1, 1⟩ := by
  have h := stack_render_correct 24 0.05 0.33
    [⟨"X", false, 0⟩, ⟨"Y", true, (1 : ℕ)⟩] 0 ⟨"Y", true, 1⟩ rfl
  refine ⟨by simpa using h.1, ?_⟩
  rw [h.2.1]
  norm_num [StackItem.mk.injEq, List.filter]

/-- C2: `openDialog id` sets the matching descriptor's open flag to true and
`closeDialog id` sets it to false; when no descriptor has the id, the registry
is entirely unchanged (silent no-op); both operations are idempotent. -/
theorem open_close_by_id_correct {α : Type} (i : String) (ds : List (DialogState α)) :
    (∀ (n : ℕ) (d : DialogState α), ds[n]? = some d →
      (openDialog i ds)[n]? = some (if d.id = i then { d with «open» := true } else d)
      ∧ (closeDialog i ds)[n]? = some (if d.id = i then { d with «open» := false } else d))
    ∧ ((∀ d ∈ ds, d.id ≠ i) → openDialog i ds = ds ∧ closeDialog i ds = ds)
    ∧ openDialog i (openDialog i ds) = openDialog i ds
    ∧ closeDialog i (closeDialog i ds) = closeDialog i ds := by
  refine ⟨fun n d hd => ⟨getElem?_openDialog i ds n d hd, getElem?_closeDialog i ds n d hd⟩,
    fun habs => ?_, ?_, ?_⟩
  · constructor <;>
    · simp only [openDialog, closeDialog]
      rw [List.map_congr_left (g := fun d => d), List.map_id']
      intro d hd
      simp [habs d hd]
  · simp only [openDialog, List.map_map]
    refine List.map_congr_left (fun d _ => ?_)
    by_cases h : d.id = i <;> simp [h]
  · simp only [closeDialog, List.map_map]
    refine List.map_congr_left (fun d _ => ?_)
    by_cases h : d.id = i <;> simp [h]

/-- Witness for C2 on the registry `[{a, closed}, {b, open}]`: opening and
closing `"a"`, a no-op open of the absent id `"zz"`, and idempotence. -/
theorem open_close_by_id_correct_witness :
    ((openDialog "a" [⟨"a", false, 0⟩, ⟨"b", true, (1 : ℕ)⟩])[0]? = some ⟨"a", true, 0⟩)
    ∧ ((closeDialog "a" [⟨"a", false, 0⟩, ⟨"b", true, (1 : ℕ)⟩])[0]? = some ⟨"a", false, 0⟩)
    ∧ (openDialog "zz" [⟨"a", false, 0⟩, ⟨"b", true, (1 : ℕ)⟩]
        = [⟨"a", false, 0⟩, ⟨"b", true, 1⟩])
    ∧ openDialog "a" (openDialog "a" [⟨"a", false, 0⟩, ⟨"b", true, (1 : ℕ)⟩])
        = openDialog "a" [⟨"a", false, 0⟩, ⟨"b", true, (1 : ℕ)⟩] := by
  have h1 := open_close_by_id_correct "a" [⟨"a", false, 0⟩, ⟨"b", true, (1 : ℕ)⟩]
  have h2 := open_close_by_id_correct "zz" [⟨"a", false, 0⟩, ⟨"b", true, (1 : ℕ)⟩]
  refine ⟨?_, ?_, (h2.2.1 (by decide)).1, h1.2.2.1⟩
  · simpa using (h1.1 0 ⟨"a", false, 0⟩ rfl).1
  · simpa using (h1.1 0 ⟨"a", false, 0⟩ rfl).2

/-- C3: `clearDialogs` sets every descriptor's open flag to false, and it is
idempotent. -/
theorem clearDialogs_correct {α : Type} (ds : List (DialogState α)) :
    (∀ d ∈ clearDialogs ds, d.«open» = false)
    ∧ clearDialogs (clearDialogs ds) = clearDialogs ds :=
  ⟨clearDialogs_all_closed ds, by simp [clearDialogs, List.map_map]⟩

/-- Witness for C3 on the one-descriptor registry `[{a, open}]`. -/
theorem clearDialogs_correct_witness :
    (⟨"a", false, 0⟩ : DialogState ℕ).«open» = false
    ∧ clearDialogs (clearDialogs [⟨"a", true, (0 : ℕ)⟩])
        = clearDialogs [⟨"a", true, (0 : ℕ)⟩] := by
  have h := clearDialogs_correct [⟨"a", true, (0 : ℕ)⟩]
  exact ⟨h.1 ⟨"a", false, 0⟩ (by simp [clearDialogs]), h.2⟩

/-- C4: when the host dialog's open state transitions to closed, the root's
open-change handler invokes `clearDialogs`, leaving every descriptor with
open flag false. -/
theorem host_close_clears_all {α : Type} (ds : List (DialogState α)) :
    handleOpenChange false ds = clearDialogs ds
    ∧ ∀ d ∈ handleOpenChange false ds, d.«open» = false :=
  ⟨rfl, fun d hd => clearDialogs_all_closed ds d hd⟩

/-- Witness for C4 on the one-descriptor registry `[{a, open}]`. -/
theorem host_close_clears_all_witness :
    handleOpenChange false [⟨"a", true, (0 : ℕ)⟩] = clearDialogs [⟨"a", true, (0 : ℕ)⟩]
    ∧ (⟨"a", false, 0⟩ : DialogState ℕ).«open» = false := by
  have h := host_close_clears_all [⟨"a", true, (0 : ℕ)⟩]
  exact ⟨h.1, h.2 ⟨"a", false, 0⟩ (by simp [handleOpenChange, clearDialogs])⟩

/-- C5: initialization sets the registry to the given list, defaulting each
open flag to false when unspecified and preserving an explicit value;
ids and contents are taken verbatim; a missing list yields the empty
registry. -/
theorem initDialogs_correct {α : Type} (inputs : List (DialogProps α)) :
    ((initDialogs (some inputs)).map (fun s => (s.id, s.dialog))
        = inputs.map (fun d => (d.id, d.dialog)))
    ∧ (∀ (n : ℕ) (d : DialogProps α), inputs[n]? = some d →
        (initDialogs (some inputs))[n]? = some ⟨d.id, d.«open».getD false, d.dialog⟩)
    ∧ ((∀ d ∈ inputs, d.«open» = none) →
        ∀ s ∈ initDialogs (some inputs), s.«open» = false)
    ∧ initDialogs (none : Option (List (DialogProps α))) = [] := by
  refine ⟨?_, fun n d hd => ?_, fun hunspec s hs => ?_, rfl⟩
  · simp [initDialogs, List.map_map]
  · simp [initDialogs, List.getElem?_map, hd]
  · simp only [initDialogs, List.mem_map] at hs
    obtain ⟨e, he, hes⟩ := hs
    simp [← hes, hunspec e he]

/-- Witness for C5 on the input list `[{a, unspecified}, {b, open: true}]`
and the all-unspecified input list `[{c, unspecified}]`. -/
theorem initDialogs_correct_witness :
    ((initDialogs (some [⟨"a", none, 0⟩, ⟨"b", some true, (1 : ℕ)⟩])).map
        (fun s => (s.id, s.dialog)) = [("a", 0), ("b", 1)])
    ∧ (initDialogs (some [⟨"a", none, 0⟩, ⟨"b", some true, (1 : ℕ)⟩]))[0]?
        = some ⟨"a", false, 0⟩
    ∧ (initDialogs (some [⟨"a", none, 0⟩, ⟨"b", some true, (1 : ℕ)⟩]))[1]?
        = some ⟨"b", true, 1⟩
    ∧ (⟨"c", false, 2⟩ : DialogState ℕ).«open» = false
    ∧ initDialogs (none : Option (List (DialogProps ℕ))) = [] := by
  have h := initDialogs_correct [⟨"a", none, 0⟩, ⟨"b", some true, (1 : ℕ)⟩]
  have h2 := initDialogs_correct [⟨"c", none, (2 : ℕ)⟩]
  refine ⟨by simpa using h.1, by simpa using h.2.1 0 ⟨"a", none, 0⟩ rfl,
    by simpa using h.2.1 1 ⟨"b", some true, 1⟩ rfl,
    h2.2.2.1 (by simp) ⟨"c", false, 2⟩ (by simp [initDialogs]), h.2.2.2⟩

/-- C6: on a registry where every descriptor bearing the given id is closed,
`openDialog id` followed by `closeDialog id` returns the registry to its
original state. -/
theorem open_then_close_roundtrip {α : Type} (i : String) (ds : List (DialogState α))
    (h : ∀ d ∈ ds, d.id = i → d.«open» = false) :
    closeDialog i (openDialog i ds) = ds := by
  simp only [closeDialog, openDialog, List.map_map]
  rw [List.map_congr_left (g := fun d => d), List.map_id']
  intro d hd
  by_cases hid : d.id = i
  · have hop := h d hd hid
    obtain ⟨di, dop, ddl⟩ := d
    simp_all
  · simp [hid]

/-- Witness for C6 on the registry `[{a, closed}, {b, open}]`. -/
theorem open_then_close_roundtrip_witness :
    closeDialog "a" (openDialog "a" [⟨"a", false, 0⟩, ⟨"b", true, (1 : ℕ)⟩])
      = [⟨"a", false, 0⟩, ⟨"b", true, 1⟩] :=
  open_then_close_roundtrip "a" [⟨"a", false, 0⟩, ⟨"b", true, (1 : ℕ)⟩] (by decide)

/-- C7 counterexample: with the duplicate-id registry
`[{a, closed, content 0}, {a, closed, content 1}]`, `openDialog "a"` opens
both descriptors and the stack renders both, so the first (non-last)
duplicate also takes effect — the behaviour is not last-write-wins. -/
theorem dup_ids_not_last_write_wins :
    openDialog "a" [⟨"a", false, 0⟩, ⟨"a", false, (1 : ℕ)⟩]
        = [⟨"a", true, 0⟩, ⟨"a", true, 1⟩]
    ∧ (renderStack 24 0.05 0.33
        (openDialog "a" [⟨"a", false, 0⟩, ⟨"a", false, (1 : ℕ)⟩])).map
        (fun s => (s.id, s.dialog)) = [("a", 0), ("a", 1)]
    ∧ closeDialog "a" [⟨"a", true, 0⟩, ⟨"a", true, (1 : ℕ)⟩]
        = [⟨"a", false, 0⟩, ⟨"a", false, 1⟩] :=
  ⟨rfl, rfl, rfl⟩

/-- C7 amended: duplicate descriptor ids are not validated or rejected, and
the behaviour is all-matches-take-effect: `openDialog`/`closeDialog` toggle
every descriptor bearing the id, and every open descriptor — duplicates
included — appears in the rendered open subset. -/
theorem dup_ids_all_matching_take_effect {α : Type} (i : String)
    (offsetY offsetScale offsetOpacity : ℚ) (ds : List (DialogState α))
    (n : ℕ) (d : DialogState α) (hd : ds[n]? = some d) (hid : d.id = i) :
    (openDialog i ds)[n]? = some { d with «open» := true }
    ∧ (closeDialog i ds)[n]? = some { d with «open» := false }
    ∧ ((renderStack offsetY offsetScale offsetOpacity ds).map
        (fun s => (s.id, s.dialog))
      = (ds.filter (fun x => x.«open»)).map (fun x => (x.id, x.dialog))) := by
  refine ⟨?_, ?_, renderStack_map_id_dialog _ _ _ _⟩
  · rw [getElem?_openDialog i ds n d hd]
    simp [hid]
  · rw [getElem?_closeDialog i ds n d hd]
    simp [hid]

/-- Witness for the amended C7 at the non-last duplicate (index 0) of the
registry `[{a, closed, 0}, {a, open, 1}]`. -/
theorem dup_ids_all_matching_take_effect_witness :
    (openDialog "a" [⟨"a", false, 0⟩, ⟨"a", true, (1 : ℕ)⟩])[0]? = some ⟨"a", true, 0⟩
    ∧ (closeDialog "a" [⟨"a", false, 0⟩, ⟨"a", true, (1 : ℕ)⟩])[0]? = some ⟨"a", false, 0⟩
    ∧ (renderStack 24 0.05 0.33 [⟨"a", false, 0⟩, ⟨"a", true, (1 : ℕ)⟩]).map
        (fun s => (s.id, s.dialog)) = [("a", 1)] := by
  have h := dup_ids_all_matching_take_effect "a" 24 0.05 0.33
    [⟨"a", false, 0⟩, ⟨"a", true, (1 : ℕ)⟩] 0 ⟨"a", false, 0⟩ rfl rfl
  exact ⟨h.1, h.2.1, by simpa using h.2.2⟩

/-- C8: the registry-context accessor fails fast with the configuration
error when used outside an initialized provider, and returns the context
value inside one. -/
theorem useDialogContext_fails_fast {γ : Type} (c : γ) :
    useDialogContext (none : Option γ) =
      Except.error "useDialogContext must be used within a DialogProvider"
    ∧ useDialogContext (some c) = Except.ok c :=
  ⟨rfl, rfl⟩

/-- C9: every registry operation preserves the number, order, ids and
contents of the descriptors; the open flag is the only field any operation
mutates. -/
theorem registry_ops_preserve_descriptors {α : Type} (i : String)
    (ds : List (DialogState α)) :
    ((openDialog i ds).map (fun d => (d.id, d.dialog)) = ds.map (fun d => (d.id, d.dialog)))
    ∧ ((closeDialog i ds).map (fun d => (d.id, d.dialog)) = ds.map (fun d => (d.id, d.dialog)))
    ∧ ((clearDialogs ds).map (fun d => (d.id, d.dialog)) = ds.map (fun d => (d.id, d.dialog)))
    ∧ (openDialog i ds).length = ds.length
    ∧ (closeDialog i ds).length = ds.length
    ∧ (clearDialogs ds).length = ds.length := by
  refine ⟨?_, ?_, ?_, ?_, ?_, ?_⟩ <;>
    simp only [openDialog, closeDialog, clearDialogs, List.map_map, List.length_map]
  · refine List.map_congr_left (fun d _ => ?_)
    by_cases h : d.id = i <;> simp [h]
  · refine List.map_congr_left (fun d _ => ?_)
    by_cases h : d.id = i <;> simp [h]
  · rfl

/-- C10: `openDialog` and `closeDialog` leave every descriptor whose id
differs from the argument entirely unchanged. -/
theorem open_close_frame {α : Type} (i : String) (ds : List (DialogState α))
    (n : ℕ) (d : DialogState α) (hd : ds[n]? = some d) (hne : d.id ≠ i) :
    (openDialog i ds)[n]? = some d ∧ (closeDialog i ds)[n]? = some d := by
  refine ⟨?_, ?_⟩
  · rw [getElem?_openDialog i ds n d hd]
    simp [hne]
  · rw [getElem?_closeDialog i ds n d hd]
    simp [hne]

/-- Witness for C10 at the unrelated descriptor `{b, open}` of the registry
`[{a, closed}, {b, open}]`. -/
theorem open_close_frame_witness :
    (openDialog "a" [⟨"a", false, 0⟩, ⟨"b", true, (1 : ℕ)⟩])[1]? = some ⟨"b", true, 1⟩
    ∧ (closeDialog "a" [⟨"a", false, 0⟩, ⟨"b", true, (1 : ℕ)⟩])[1]? = some ⟨"b", true, 1⟩ :=
  open_close_frame "a" [⟨"a", false, 0⟩, ⟨"b", true, (1 : ℕ)⟩] 1 ⟨"b", true, 1⟩ rfl
    (by decide)

end Dialux
